import Mathlib

/-!
Verification of the receipt-analysis pipeline (`analisador_fiscal_ocr`).

The Python source is shallowly embedded:
* strings are `List Char` (with `String` wrappers at the boundaries);
* Python `float` values produced by parsing decimal tokens are modelled as
  exact rationals `ℚ` (every value the program parses is a decimal with at
  most two fraction digits and at most eight significant digits, a range on
  which IEEE doubles order, compare and reformat exactly like the decimals
  themselves);
* the regular expressions of `ocr_aws.py` are embedded as abstract syntax
  trees for a small backtracking engine reproducing Python's leftmost,
  priority-ordered match semantics (each pattern used by the program has
  exactly one capture group);
* `\w`, `\s`, `\d` and case conversion are modelled on the character sets
  the program actually meets (ASCII plus the accented letters of the
  keyword tables); the texts handed to the regex layer never contain
  newlines (the amount extractor works line by line, the identifier
  extractor collapses all whitespace first), so `^`/`$` are begin/end of
  the scanned text;
* external effects (AWS Textract, the BrasilAPI HTTP call) are oracles
  passed in as function arguments; an exception is `Except.error`.
-/

/- The rational operations of Batteries are `@[irreducible]`; restoring the
default reducibility lets `decide` evaluate the embedded extractors on
concrete receipt texts (this changes nothing logically — the kernel checks
the very same definitions). -/
set_option allowUnsafeReducibility true in
attribute [semireducible] Rat.add Rat.mul Rat.inv Rat.sub

namespace AnalisadorFiscal

/-! ### Character helpers (Python `str` methods and regex classes) -/

/-- Python regex class `\d` (decimal digits). -/
def ehDigito (c : Char) : Bool := '0' ≤ c && c ≤ '9'

/-- Python regex class `\s` (whitespace). -/
def ehEspaco (c : Char) : Bool :=
  c = ' ' || c = '\t' || c = '\n' || c = '\r' || c = '\x0b' || c = '\x0c'

/-- Python regex class `\w` (word characters). -/
def ehPalavra (c : Char) : Bool := c.isAlpha || ehDigito c || c = '_'

/-- Python `str.lower` on the characters this program meets. -/
def paraMinuscula (c : Char) : Char :=
  if 'A' ≤ c && c ≤ 'Z' then Char.ofNat (c.toNat + 32)
  else if c = 'Á' then 'á' else if c = 'À' then 'à' else if c = 'Â' then 'â'
  else if c = 'Ã' then 'ã' else if c = 'É' then 'é' else if c = 'Ê' then 'ê'
  else if c = 'Í' then 'í' else if c = 'Ó' then 'ó' else if c = 'Ô' then 'ô'
  else if c = 'Õ' then 'õ' else if c = 'Ú' then 'ú' else if c = 'Ü' then 'ü'
  else if c = 'Ç' then 'ç' else c

/-- Python `str.upper` on the characters this program meets. -/
def paraMaiuscula (c : Char) : Char :=
  if 'a' ≤ c && c ≤ 'z' then Char.ofNat (c.toNat - 32)
  else if c = 'á' then 'Á' else if c = 'à' then 'À' else if c = 'â' then 'Â'
  else if c = 'ã' then 'Ã' else if c = 'é' then 'É' else if c = 'ê' then 'Ê'
  else if c = 'í' then 'Í' else if c = 'ó' then 'Ó' else if c = 'ô' then 'Ô'
  else if c = 'õ' then 'Õ' else if c = 'ú' then 'Ú' else if c = 'ü' then 'Ü'
  else if c = 'ç' then 'Ç' else c

/-- Python `str.strip`. -/
def tirarEspacos (l : List Char) : List Char :=
  ((l.dropWhile ehEspaco).reverse.dropWhile ehEspaco).reverse

/-- Python substring test `needle in hay`. -/
def contemSub (agulha palheiro : List Char) : Bool :=
  (List.range (palheiro.length + 1)).any fun i => agulha.isPrefixOf (palheiro.drop i)

/-- Python `texto.split(sep)` for a one-character separator, keeping empty parts. -/
def dividirEm (sep : Char) : List Char → List Char → List (List Char)
  | [], acc => [acc.reverse]
  | c :: resto, acc =>
    if c = sep then acc.reverse :: dividirEm sep resto []
    else dividirEm sep resto (c :: acc)

/-- `texto.split('\n')` (ocr_aws.py line 127). -/
def dividirLinhas (l : List Char) : List (List Char) := dividirEm '\n' l []

/-- `re.sub(r'\s+', ' ', texto)`: collapse every whitespace run to one space
(ocr_aws.py line 73). -/
def colapsarEspacos : List Char → Bool → List Char
  | [], _ => []
  | c :: resto, anteriorEspaco =>
    if ehEspaco c then
      if anteriorEspaco then colapsarEspacos resto true
      else ' ' :: colapsarEspacos resto true
    else c :: colapsarEspacos resto false

/-! ### A small regex engine with Python's backtracking priority

`Re` covers exactly the constructs the program's patterns use: single-character
classes, sequencing, prioritized alternation, greedy bounded/unbounded
repetition of a character class, and the `^`/`$` anchors. -/

inductive Re where
  | eps : Re
  | cls : (Char → Bool) → Re
  | seq : Re → Re → Re
  | alt : Re → Re → Re
  | rep : (Char → Bool) → Nat → Option Nat → Re
  | bol : Re
  | eol : Re

/-- All end positions of a match of `r` starting at `pos`, in backtracking
priority order (greedy repetition first, left alternative first). -/
def rodarRe (entrada : List Char) : Re → Nat → List Nat
  | .eps, pos => [pos]
  | .cls p, pos =>
    match entrada[pos]? with
    | some c => if p c then [pos + 1] else []
    | none => []
  | .seq a b, pos => (rodarRe entrada a pos).flatMap (rodarRe entrada b)
  | .alt a b, pos => rodarRe entrada a pos ++ rodarRe entrada b pos
  | .rep p lo hi, pos =>
    let m := ((entrada.drop pos).takeWhile p).length
    let teto := match hi with | some h => min h m | none => m
    if teto < lo then []
    else (List.range (teto + 1 - lo)).map fun i => pos + (teto - i)
  | .bol, pos => if pos = 0 then [pos] else []
  | .eol, pos => if pos = entrada.length then [pos] else []

/-- A pattern with exactly one capture group: `pre(grupo)pos`. -/
structure Padrao where
  pre : Re
  grupo : Re
  pos : Re

/-- First match of `pat` beginning exactly at `inicio`, in Python's
backtracking priority order; yields (group start, group end, match end). -/
def casarEm (entrada : List Char) (pat : Padrao) (inicio : Nat) :
    Option (Nat × Nat × Nat) :=
  ((rodarRe entrada pat.pre inicio).flatMap fun p1 =>
    (rodarRe entrada pat.grupo p1).flatMap fun p2 =>
      (rodarRe entrada pat.pos p2).map fun p3 => (p1, p2, p3)).head?

/-- Scanning loop of `re.findall`: leftmost match first, continue after each
match (one step forward after an empty match). -/
def procurarTodosDesde (entrada : List Char) (pat : Padrao) :
    Nat → Nat → List (List Char)
  | _, 0 => []
  | posAtual, combustivel + 1 =>
    if posAtual > entrada.length then []
    else
      match casarEm entrada pat posAtual with
      | some (g1, g2, fim) =>
        ((entrada.drop g1).take (g2 - g1)) ::
          procurarTodosDesde entrada pat
            (if posAtual < fim then fim else posAtual + 1) combustivel
      | none => procurarTodosDesde entrada pat (posAtual + 1) combustivel

/-- `re.findall(pat, entrada)` returning the capture-group strings. -/
def procurarTodos (pat : Padrao) (entrada : List Char) : List (List Char) :=
  procurarTodosDesde entrada pat 0 (entrada.length + 2)

/-! Smart constructors used to transcribe the patterns. -/

def reSeq (rs : List Re) : Re := rs.foldr Re.seq Re.eps

def reAlt2 (a b : Re) : Re := Re.alt a b

def charEh (c : Char) : Re := Re.cls fun x => x = c

/-- A literal character under `re.IGNORECASE`. -/
def charCI (c : Char) : Re := Re.cls fun x => paraMinuscula x = paraMinuscula c

/-- A literal word under `re.IGNORECASE`. -/
def litCI (s : String) : Re := reSeq (s.data.map charCI)

def reDigitos (lo hi : Nat) : Re := Re.rep ehDigito lo (some hi)

/-- Class `[,.]`. -/
def ehVirgulaOuPonto (c : Char) : Bool := c = ',' || c = '.'

/-- Class `[:\s]`. -/
def ehDoisPontosOuEspaco (c : Char) : Bool := c = ':' || ehEspaco c

/-! ### IdentifierExtractor: `OCRAws.extrair_cnpj` (ocr_aws.py lines 61-98) -/

/-- `re.sub(r'[^\w\s\.\-\/]', ' ', texto)` (ocr_aws.py line 72): the pattern
matches one character, so the substitution is a character map. -/
def substituirSimbolos (l : List Char) : List Char :=
  l.map fun c =>
    if ehPalavra c || ehEspaco c || c = '.' || c = '-' || c = '/' then c else ' '

/-- The text cleaning of ocr_aws.py lines 72-73. -/
def limpar_texto (l : List Char) : List Char :=
  colapsarEspacos (substituirSimbolos l) false

/-- Group `\d{2}\.?\d{3}\.?\d{3}\/?\d{4}-?\d{2}` (ocr_aws.py line 78). -/
def grupo_cnpj_formatado : Re :=
  reSeq [reDigitos 2 2, Re.rep (fun c => c = '.') 0 (some 1),
    reDigitos 3 3, Re.rep (fun c => c = '.') 0 (some 1),
    reDigitos 3 3, Re.rep (fun c => c = '/') 0 (some 1),
    reDigitos 4 4, Re.rep (fun c => c = '-') 0 (some 1), reDigitos 2 2]

/-- Group `\d{2}\.\d{3}\.\d{3}/\d{4}-\d{2}` (ocr_aws.py line 84). -/
def grupo_cnpj_estrito : Re :=
  reSeq [reDigitos 2 2, charEh '.', reDigitos 3 3, charEh '.',
    reDigitos 3 3, charEh '/', reDigitos 4 4, charEh '-', reDigitos 2 2]

/-- `padroes_cnpj` (ocr_aws.py lines 76-85), in declared order. -/
def padroes_cnpj : List Padrao :=
  [⟨reSeq [litCI "CNPJ", Re.rep ehDoisPontosOuEspaco 0 none],
    grupo_cnpj_formatado, Re.eps⟩,
   ⟨reSeq [litCI "CNPJ", Re.rep ehDoisPontosOuEspaco 0 none],
    reDigitos 14 14, Re.eps⟩,
   ⟨reAlt2 Re.bol (Re.cls ehEspaco), reDigitos 14 14,
    reAlt2 (Re.cls ehEspaco) Re.eol⟩,
   ⟨Re.eps, grupo_cnpj_estrito, Re.eps⟩]

/-- `re.sub(r'[^\d]', '', match)` (ocr_aws.py line 91). -/
def limpar_cnpj (m : List Char) : List Char := m.filter ehDigito

/-- `all(d == cnpj_limpo[0] for d in cnpj_limpo)` (ocr_aws.py line 95). -/
def todosDigitosIguais : List Char → Bool
  | [] => true
  | c :: resto => (c :: resto).all fun d => d = c

/-- The validation of ocr_aws.py line 95. -/
def validar_cnpj (s : List Char) : Bool :=
  !("00000".data.isPrefixOf s) && !(todosDigitosIguais s)

/-- The per-candidate acceptance test of ocr_aws.py lines 93-96:
exactly 14 digits and basic validation. -/
def aceitar_cnpj (s : List Char) : Bool := s.length == 14 && validar_cnpj s

/-- The pattern loop of ocr_aws.py lines 87-98. -/
def buscar_cnpj : List Padrao → List Char → Option (List Char)
  | [], _ => none
  | pat :: resto, limpo =>
    match ((procurarTodos pat limpo).map limpar_cnpj).find? aceitar_cnpj with
    | some c => some c
    | none => buscar_cnpj resto limpo

/-- `OCRAws.extrair_cnpj` (ocr_aws.py lines 61-98). -/
def extrair_cnpj (texto : String) : Option String :=
  (buscar_cnpj padroes_cnpj (limpar_texto texto.data)).map String.mk

/-! ### AmountExtractor: `OCRAws.extrair_valor_total` (ocr_aws.py lines 100-170) -/

/-- Value of a digit list in base 10. -/
def digitosParaNat (l : List Char) : Nat :=
  l.foldl (fun a c => a * 10 + (c.toNat - 48)) 0

/-- Model of Python `float()` on the strings this program builds (digit runs
with at most one `.`); any other shape raises `ValueError`, modelled as
`none`. -/
def lerFloat (l : List Char) : Option ℚ :=
  match dividirEm '.' l [] with
  | [inteira] =>
    if inteira ≠ [] ∧ inteira.all ehDigito then some (digitosParaNat inteira)
    else none
  | [inteira, frac] =>
    if (inteira ≠ [] ∨ frac ≠ []) ∧ inteira.all ehDigito ∧ frac.all ehDigito then
      some ((digitosParaNat inteira : ℚ) + (digitosParaNat frac : ℚ) / ((10 : ℚ) ^ frac.length))
    else none
  | _ => none

/-- The locale normalization of ocr_aws.py lines 137-145: swap a comma for the
decimal point, and when the token has both separators strip the dots and use
the comma as decimal point, then parse. -/
def normalizar_valor (m : List Char) : Option ℚ :=
  let valor_str := m.map fun c => if c = ',' then '.' else c
  let valor_str :=
    if valor_str.contains '.' && m.contains ',' then
      (m.filter fun c => ¬(c = '.')).map fun c => if c = ',' then '.' else c
    else valor_str
  lerFloat valor_str

/-- Decimal digits of a natural number. -/
def digitosDeNat (n : Nat) : List Char := (Nat.repr n).data

/-- Python truncation `int(q)` (toward zero). -/
def pyInt (q : ℚ) : ℤ := Int.tdiv q.num q.den

/-- `f'{valor:.2f}'.replace('.', ',')` (ocr_aws.py line 157) for the values the
extractor produces (non-negative multiples of 1/100). -/
def formatar2fVirgula (v : ℚ) : List Char :=
  let n : Nat := (pyInt (v * 100)).toNat
  digitosDeNat (n / 100) ++
    ',' :: (if n % 100 < 10 then '0' :: digitosDeNat (n % 100) else digitosDeNat (n % 100))

/-- The context weight of ocr_aws.py lines 149-158. -/
def peso_valor (linha : List Char) (valor : ℚ) : Nat :=
  1 +
  (if ["TOTAL", "VALOR TOTAL", "TOTAL GERAL"].any
      (fun palavra => contemSub palavra.data (linha.map paraMaiuscula))
   then 10 else 0) +
  (if contemSub "R$".data linha || contemSub "RS".data linha then 5 else 0) +
  (if (formatar2fVirgula valor).isSuffixOf (tirarEspacos linha) then 3 else 0)

/-- Group `\d{1,6}[,.]?\d{2}` shared by the first five amount patterns. -/
def grupo_valor : Re :=
  reSeq [Re.rep ehDigito 1 (some 6), Re.rep ehVirgulaOuPonto 0 (some 1),
    Re.rep ehDigito 2 (some 2)]

/-- Optional `R?\$?\s*` tail of the keyword-anchored amount patterns. -/
def cauda_moeda : Re :=
  reSeq [Re.rep (fun c => paraMinuscula c = 'r') 0 (some 1),
    Re.rep (fun c => c = '$') 0 (some 1), Re.rep ehEspaco 0 none]

/-- `padroes_valor` (ocr_aws.py lines 111-122), in declared order. -/
def padroes_valor : List Padrao :=
  [⟨reSeq [reAlt2 (litCI "TOTAL")
      (reAlt2 (reSeq [litCI "VALOR", Re.rep ehEspaco 0 none, litCI "TOTAL"])
        (reSeq [litCI "TOTAL", Re.rep ehEspaco 0 none, litCI "GERAL"])),
      Re.rep ehDoisPontosOuEspaco 0 none, cauda_moeda],
    grupo_valor, Re.eps⟩,
   ⟨reSeq [reAlt2 (litCI "TOTAL") (litCI "VALOR"),
      Re.rep ehDoisPontosOuEspaco 0 none, cauda_moeda],
    grupo_valor, Re.eps⟩,
   ⟨reSeq [charCI 'R', charEh '$', Re.rep ehEspaco 0 none], grupo_valor, Re.eps⟩,
   ⟨reSeq [charCI 'R', charCI 'S', Re.rep ehEspaco 0 none], grupo_valor, Re.eps⟩,
   ⟨Re.eps, grupo_valor, reSeq [Re.rep ehEspaco 0 none, Re.eol]⟩,
   ⟨reAlt2 Re.bol (Re.cls ehEspaco),
    reSeq [Re.rep ehDigito 1 (some 4), Re.rep ehVirgulaOuPonto 1 (some 1),
      Re.rep ehDigito 2 (some 2)],
    reAlt2 (Re.cls ehEspaco) Re.eol⟩]

/-- The candidates one (already stripped, non-empty) line contributes
(ocr_aws.py lines 134-163): every pattern, every match, normalized, kept only
inside [0.01, 999999.99], paired with its context weight. -/
def candidatos_linha (linha : List Char) : List (ℚ × Nat) :=
  padroes_valor.flatMap fun pat =>
    (procurarTodos pat linha).filterMap fun m =>
      match normalizar_valor m with
      | none => none
      | some valor =>
        if 1/100 ≤ valor ∧ valor ≤ 99999999/100 then
          some (valor, peso_valor linha valor)
        else none

/-- All candidates of the whole text (ocr_aws.py lines 124-163): line by line,
stripped, empty lines skipped. -/
def candidatos (texto : List Char) : List (ℚ × Nat) :=
  (dividirLinhas texto).flatMap fun linha0 =>
    let linha := tirarEspacos linha0
    if linha = [] then [] else candidatos_linha linha

/-- Python's sort key ordering for
`sort(key=lambda x: (x[1], x[0]), reverse=True)` (ocr_aws.py line 169):
descending by weight, then descending by value. -/
def chaveGe (x y : ℚ × Nat) : Prop := y.2 < x.2 ∨ (y.2 = x.2 ∧ y.1 ≤ x.1)

instance : DecidableRel chaveGe := fun x y => by
  unfold chaveGe; infer_instance

instance : IsTotal (ℚ × Nat) chaveGe :=
  ⟨fun x y => by
    rcases Nat.lt_trichotomy x.2 y.2 with h | h | h
    · exact Or.inr (Or.inl h)
    · rcases le_total x.1 y.1 with h1 | h1
      · exact Or.inr (Or.inr ⟨h, h1⟩)
      · exact Or.inl (Or.inr ⟨h.symm, h1⟩)
    · exact Or.inl (Or.inl h)⟩

instance : IsTrans (ℚ × Nat) chaveGe :=
  ⟨fun x y z hxy hyz => by
    rcases hxy with h1 | ⟨h1, h1'⟩ <;> rcases hyz with h2 | ⟨h2, h2'⟩
    · exact Or.inl (h2.trans h1)
    · exact Or.inl (h2 ▸ h1)
    · exact Or.inl (h1 ▸ h2)
    · exact Or.inr ⟨h2.trans h1, h2'.trans h1'⟩⟩

/-- The stable descending sort of ocr_aws.py line 169. -/
def ordenar_py (l : List (ℚ × Nat)) : List (ℚ × Nat) :=
  List.insertionSort chaveGe l

/-- `OCRAws.extrair_valor_total` (ocr_aws.py lines 100-170). -/
def extrair_valor_total (texto : String) : ℚ :=
  match ordenar_py (candidatos texto.data) with
  | [] => 0
  | melhor :: _ => melhor.1

/-! ### Categorizer: `categorizar_por_cnae` (categorizador.py lines 33-119) -/

/-- The keyword list of the "Educação" category (categorizador.py lines
76-80), named so that proofs can split the table at this entry. -/
def palavras_educacao : List String :=
  ["escola", "universidade", "faculdade", "curso", "treinamento",
   "educação", "ensino", "livraria", "papelaria", "material escolar",
   "biblioteca", "seminário", "workshop"]

/-- The category → keyword table of categorizador.py lines 49-111, in declared
order (Python dicts preserve insertion order). -/
def categorias : List (String × List String) :=
  [("Alimentação",
    ["restaurante", "lanchonete", "padaria", "confeitaria", "pizzaria",
     "hamburgueria", "sorveteria", "açaí", "comida", "alimento",
     "bebida", "bar", "pub", "cervejaria", "cafeteria", "café",
     "pastelaria", "doceria", "panificação", "mercearia", "supermercado",
     "hipermercado", "minimercado", "empório", "delicatessen"]),
   ("Transporte",
    ["taxi", "uber", "transporte", "combustível", "gasolina", "etanol",
     "diesel", "posto", "estacionamento", "pedágio", "ônibus",
     "metrô", "trem", "avião", "passagem", "locação de veículos",
     "aluguel de carros", "moto", "bicicleta"]),
   ("Hospedagem",
    ["hotel", "pousada", "hostel", "motel", "resort", "hospedagem",
     "alojamento", "pensão", "apart-hotel", "flat"]),
   ("Saúde",
    ["farmácia", "drogaria", "medicamento", "hospital", "clínica",
     "consultório", "médico", "dentista", "laboratório", "exame",
     "fisioterapia", "psicologia", "veterinário", "ótica", "óculos"]),
   ("Educação", palavras_educacao),
   ("Tecnologia",
    ["informática", "computador", "software", "hardware", "eletrônico",
     "celular", "smartphone", "tablet", "notebook", "impressora",
     "internet", "telecomunicações", "telefonia", "dados"]),
   ("Vestuário",
    ["roupa", "vestuário", "calçado", "sapato", "tênis", "sandália",
     "confecção", "moda", "boutique", "loja de roupas", "alfaiataria",
     "sapataria", "acessórios"]),
   ("Serviços",
    ["consultoria", "advocacia", "contabilidade", "auditoria",
     "engenharia", "arquitetura", "design", "publicidade", "marketing",
     "limpeza", "segurança", "manutenção", "reparo", "instalação"]),
   ("Entretenimento",
    ["cinema", "teatro", "show", "evento", "festa", "entretenimento",
     "diversão", "parque", "museu", "exposição", "jogo", "esporte",
     "academia", "ginástica", "clube", "recreação"]),
   ("Material de Escritório",
    ["papelaria", "escritório", "material de escritório", "impressão",
     "gráfica", "fotocópia", "encadernação", "papel", "caneta",
     "arquivo", "pasta", "organizador"])]

/-- The nested category/keyword loop of categorizador.py lines 114-119: the
first category with a keyword occurring in the description wins. -/
def categorizar_lista : List (String × List String) → List Char → String
  | [], _ => "Outros"
  | (categoria, palavras) :: resto, descricao =>
    if palavras.any (fun palavra => contemSub palavra.data descricao) then categoria
    else categorizar_lista resto descricao

/-- `categorizar_por_cnae` (categorizador.py lines 33-119). -/
def categorizar_por_cnae (descricao_cnae : String) : String :=
  if descricao_cnae = "" then "Outros"
  else categorizar_lista categorias (descricao_cnae.data.map paraMinuscula)

/-! ### RegistryLookup: `consultar_cnpj_brasilapi` (categorizador.py lines 8-30)

The HTTP layer is an oracle from the request URL to either a transport error
(a raised `requests` exception) or a response carrying a status code and the
parsed JSON record (modelled as a field map). -/

structure Resposta where
  status_code : Nat
  corpo : List (String × String)
deriving DecidableEq

def url_cnpj (cnpj : String) : String :=
  "https://brasilapi.com.br/api/cnpj/v1/" ++ cnpj

/-- `consultar_cnpj_brasilapi` (categorizador.py lines 8-30): 200 → parsed
record, any other status → `none`, any transport error → `none`; the function
is total, so no failure escapes to the caller. -/
def consultar_cnpj_brasilapi (http : String → Except String Resposta)
    (cnpj : String) : Option (List (String × String)) :=
  match http (url_cnpj cnpj) with
  | Except.ok resposta =>
    if resposta.status_code = 200 then some resposta.corpo else none
  | Except.error _ => none

/-! ### Batch loop: `processar_canhotos` (main.py lines 46-119)

The two external calls inside the per-image `try` block — Textract extraction
and the registry lookup — are oracles that may raise (`Except.error`). -/

structure DadosCanhoto where
  cnpj : Option String
  valor : ℚ
  texto_completo : String
deriving DecidableEq

structure InfoEmpresa where
  nome : String
  atividade_principal : String
  cnae_codigo : String
deriving DecidableEq

structure Registro where
  arquivo : String
  cnpj : Option String
  valor : ℚ
  empresa : String
  atividade : String
  categoria : String
  texto_completo : String
deriving DecidableEq

/-- The degraded record appended on a caught exception (main.py lines 109-117). -/
def registro_erro (arquivo : String) : Registro :=
  ⟨arquivo, none, 0, "Erro no processamento", "Erro", "Outros", ""⟩

/-- The body of the per-image `try` block (main.py lines 66-104). -/
def processar_um (extrair : String → Except String DadosCanhoto)
    (consultar : String → Except String (Option InfoEmpresa))
    (arquivo : String) : Except String Registro := do
  let dados ← extrair arquivo
  match dados.cnpj with
  | some cnpj =>
    let info? ← consultar cnpj
    match info? with
    | some info =>
      pure ⟨arquivo, dados.cnpj, dados.valor, info.nome, info.atividade_principal,
        categorizar_por_cnae info.atividade_principal, dados.texto_completo⟩
    | none =>
      pure ⟨arquivo, dados.cnpj, dados.valor, "Não identificada",
        "Não identificada", "Outros", dados.texto_completo⟩
  | none =>
    pure ⟨arquivo, dados.cnpj, dados.valor, "CNPJ não encontrado",
      "Não identificada", "Outros", dados.texto_completo⟩

/-- `processar_canhotos` (main.py lines 46-119): one record per image,
appended in order; an exception inside the loop body yields the degraded
record and the loop continues. -/
def processar_canhotos (extrair : String → Except String DadosCanhoto)
    (consultar : String → Except String (Option InfoEmpresa))
    (imagens : List String) : List Registro :=
  imagens.map fun imagem =>
    match processar_um extrair consultar imagem with
    | Except.ok registro => registro
    | Except.error _ => registro_erro imagem

/-! ### Aggregation and the two report renderers
(main.py lines 122-165, categorizador.py lines 196-244)

The renderers print lines; the model keeps the numeric content of each
printed category line as a tuple (category, total, percentage, bar length). -/

/-- One step of the Python dict accumulation
`gastos_por_categoria[categoria] += valor` (insertion order preserved). -/
def adicionar_gasto : List (String × ℚ) → String → ℚ → List (String × ℚ)
  | [], categoria, valor => [(categoria, valor)]
  | (c, x) :: resto, categoria, valor =>
    if c = categoria then (c, x + valor) :: resto
    else (c, x) :: adicionar_gasto resto categoria valor

/-- The grouping loop of main.py lines 134-145. -/
def agrupar_gastos (resultados : List Registro) : List (String × ℚ) :=
  resultados.foldl (fun g r => adicionar_gasto g r.categoria r.valor) []

/-- `total_geral` of main.py lines 135-145 (accumulated alongside grouping). -/
def total_geral (resultados : List Registro) : ℚ :=
  (resultados.map fun r => r.valor).sum

/-- Python's `sorted(..., key=lambda x: x[1], reverse=True)`: descending by
value, stable. -/
def gastoGe (x y : String × ℚ) : Prop := y.2 ≤ x.2

instance : DecidableRel gastoGe := fun x y => by
  unfold gastoGe; infer_instance

instance : IsTotal (String × ℚ) gastoGe := ⟨fun x y => le_total y.2 x.2⟩

instance : IsTrans (String × ℚ) gastoGe :=
  ⟨fun _ _ _ h1 h2 => le_trans h2 h1⟩

def ordenar_gastos (g : List (String × ℚ)) : List (String × ℚ) :=
  List.insertionSort gastoGe g

/-- `max(gastos_por_categoria.values()) if gastos_por_categoria else 1`
(categorizador.py line 228). -/
def valor_maximo (gastos : List (String × ℚ)) : ℚ :=
  match gastos.map fun g => g.2 with
  | [] => 1
  | v :: vs => vs.foldl max v

/-- Numeric content of the category lines printed by
`gerar_relatorio_categorias` (categorizador.py lines 227-240): for each
category in descending-total order, its total, its percentage of the grand
total, and a bar of `int((valor / valor_maximo) * 30)` characters. -/
def gerar_relatorio_categorias (gastos : List (String × ℚ)) :
    List (String × ℚ × ℚ × ℤ) :=
  let total := (gastos.map fun g => g.2).sum
  let vmax := valor_maximo gastos
  (ordenar_gastos gastos).map fun g =>
    (g.1, g.2, g.2 / total * 100, pyInt (g.2 / vmax * 30))

/-- Numeric content of the category lines printed by `gerar_relatorio`
(main.py lines 147-163): only when the grand total is positive, and only
categories with positive totals, each with a bar of
`int(percentual / 3.33)` characters (the float literal 3.33 is modelled as
the rational 333/100). -/
def gerar_relatorio (resultados : List Registro) :
    List (String × ℚ × ℚ × ℤ) :=
  let g := agrupar_gastos resultados
  let total := total_geral resultados
  if 0 < total then
    ((ordenar_gastos g).filter fun p => 0 < p.2).map fun p =>
      (p.1, p.2, p.2 / total * 100, pyInt ((p.2 / total * 100) / (333/100)))
  else []

/-! ### Helper lemmas shared by the claim theorems -/

/-- The amount extractor returns 0 on an empty candidate list and otherwise
the value of a candidate maximal in the order "weight first, value second". -/
theorem extrair_valor_caracterizacao (texto : String) :
    (candidatos texto.data = [] ∧ extrair_valor_total texto = 0) ∨
    ∃ p ∈ candidatos texto.data, extrair_valor_total texto = p.1 ∧
      ∀ q ∈ candidatos texto.data, q.2 < p.2 ∨ (q.2 = p.2 ∧ q.1 ≤ p.1) := by
  have hperm := List.perm_insertionSort chaveGe (candidatos texto.data)
  have hsort := List.sorted_insertionSort chaveGe (candidatos texto.data)
  have hord : List.insertionSort chaveGe (candidatos texto.data) =
      ordenar_py (candidatos texto.data) := rfl
  rw [hord] at hperm hsort
  unfold extrair_valor_total
  cases hs : ordenar_py (candidatos texto.data) with
  | nil =>
    rw [hs] at hperm
    exact Or.inl ⟨(List.Perm.nil_eq hperm).symm, rfl⟩
  | cons melhor resto =>
    rw [hs] at hperm hsort
    refine Or.inr ⟨melhor, hperm.subset (List.mem_cons_self melhor resto), rfl, ?_⟩
    intro q hq
    rcases (List.mem_cons).mp (hperm.mem_iff.mpr hq) with h | h
    · exact Or.inr ⟨by rw [h], by rw [h]⟩
    · exact List.rel_of_sorted_cons hsort q h

/-- Every collected candidate value lies in [0.01, 999999.99]
(the filter of ocr_aws.py line 148). -/
theorem candidatos_intervalo {t : List Char} {p : ℚ × Nat}
    (hp : p ∈ candidatos t) : 1/100 ≤ p.1 ∧ p.1 ≤ 99999999/100 := by
  unfold candidatos at hp
  rw [List.mem_flatMap] at hp
  obtain ⟨linha0, -, hp⟩ := hp
  by_cases h : tirarEspacos linha0 = []
  · simp only [h, if_pos rfl] at hp
    exact absurd hp (List.not_mem_nil p)
  · simp only [if_neg h] at hp
    unfold candidatos_linha at hp
    rw [List.mem_flatMap] at hp
    obtain ⟨pat, -, hp⟩ := hp
    rw [List.mem_filterMap] at hp
    obtain ⟨m, -, hm⟩ := hp
    cases hn : normalizar_valor m with
    | none => rw [hn] at hm; exact absurd hm (by simp)
    | some valor =>
      rw [hn] at hm
      by_cases hr : 1/100 ≤ valor ∧ valor ≤ 99999999/100
      · simp only [if_pos hr, Option.some.injEq] at hm
        rw [← hm]
        exact hr
      · simp only [if_neg hr] at hm
        exact absurd hm (by simp)

/-- The CNPJ pattern loop equals a single `find?` over the candidates of all
patterns concatenated in declared order. -/
theorem buscar_cnpj_eq_find (limpo : List Char) :
    ∀ ps : List Padrao,
      buscar_cnpj ps limpo =
        (ps.flatMap fun pat =>
          (procurarTodos pat limpo).map limpar_cnpj).find? aceitar_cnpj
  | [] => rfl
  | pat :: resto => by
    rw [buscar_cnpj, List.flatMap_cons, List.find?_append]
    cases h : ((procurarTodos pat limpo).map limpar_cnpj).find? aceitar_cnpj with
    | some c => rfl
    | none => exact buscar_cnpj_eq_find limpo resto

/-- Keyword search over the category table equals `find?` on the table. -/
theorem categorizar_lista_eq_find (descricao : List Char) :
    ∀ cs : List (String × List String),
      categorizar_lista cs descricao =
        match cs.find? (fun c => c.2.any fun palavra =>
            contemSub palavra.data descricao) with
        | some c => c.1
        | none => "Outros"
  | [] => rfl
  | (categoria, palavras) :: resto => by
    by_cases h : (palavras.any fun palavra => contemSub palavra.data descricao) = true
    · rw [categorizar_lista, if_pos h,
        show List.find? (fun c : String × List String => c.2.any fun palavra =>
            contemSub palavra.data descricao) ((categoria, palavras) :: resto) =
          some (categoria, palavras) from List.find?_cons_of_pos _ h]
    · rw [categorizar_lista, if_neg h,
        show List.find? (fun c : String × List String => c.2.any fun palavra =>
            contemSub palavra.data descricao) ((categoria, palavras) :: resto) =
          List.find? (fun c : String × List String => c.2.any fun palavra =>
            contemSub palavra.data descricao) resto from List.find?_cons_of_neg _ h,
        categorizar_lista_eq_find descricao resto]

/-- Categories whose keywords all miss the description are skipped. -/
theorem categorizar_lista_pular (descricao : List Char) :
    ∀ cs1 cs2 : List (String × List String),
      (cs1.all fun c => c.2.all fun palavra =>
        !contemSub palavra.data descricao) = true →
      categorizar_lista (cs1 ++ cs2) descricao = categorizar_lista cs2 descricao
  | [], _, _ => rfl
  | (categoria, palavras) :: resto, cs2, h => by
    rw [List.all_cons, Bool.and_eq_true] at h
    have hnenhuma : palavras.any (fun palavra =>
        contemSub palavra.data descricao) = false := by
      rw [List.any_eq_false]
      intro palavra hpal
      have := (List.all_eq_true.mp h.1) palavra hpal
      simpa using this
    rw [List.cons_append, categorizar_lista, if_neg (by simp [hnenhuma]),
      categorizar_lista_pular descricao resto cs2 h.2]

/-- If some category of the list fires, the loop does not fall through: it
returns one of the listed category names. -/
theorem categorizar_lista_atinge (descricao : List Char) :
    ∀ cs : List (String × List String),
      (∃ c ∈ cs, c.2.any (fun palavra =>
        contemSub palavra.data descricao) = true) →
      categorizar_lista cs descricao ∈ cs.map fun c => c.1
  | [], h => absurd h (by simp)
  | (categoria, palavras) :: resto, h => by
    by_cases hc : palavras.any (fun palavra => contemSub palavra.data descricao) = true
    · rw [categorizar_lista, if_pos hc]
      exact List.mem_cons_self _ _
    · rw [categorizar_lista, if_neg hc]
      refine List.mem_cons_of_mem _ (categorizar_lista_atinge descricao resto ?_)
      obtain ⟨c, hmem, hany⟩ := h
      rcases (List.mem_cons).mp hmem with rfl | hmem
      · exact absurd hany hc
      · exact ⟨c, hmem, hany⟩

/-- A category hit inside a prefix of the table decides the outcome there. -/
theorem categorizar_lista_prefixo (descricao : List Char) :
    ∀ cs1 cs2 : List (String × List String),
      (∃ c ∈ cs1, c.2.any (fun palavra =>
        contemSub palavra.data descricao) = true) →
      categorizar_lista (cs1 ++ cs2) descricao = categorizar_lista cs1 descricao
  | [], _, h => absurd h (by simp)
  | (categoria, palavras) :: resto, cs2, h => by
    by_cases hc : palavras.any (fun palavra => contemSub palavra.data descricao) = true
    · rw [List.cons_append, categorizar_lista, if_pos hc, categorizar_lista, if_pos hc]
    · rw [List.cons_append, categorizar_lista, if_neg hc, categorizar_lista, if_neg hc]
      refine categorizar_lista_prefixo descricao resto cs2 ?_
      obtain ⟨c, hmem, hany⟩ := h
      rcases (List.mem_cons).mp hmem with rfl | hmem
      · exact absurd hany hc
      · exact ⟨c, hmem, hany⟩

/-- `adicionar_gasto` adds the new value to the total of the accumulator. -/
theorem soma_adicionar_gasto (categoria : String) (valor : ℚ) :
    ∀ g : List (String × ℚ),
      ((adicionar_gasto g categoria valor).map fun p => p.2).sum =
        ((g.map fun p => p.2).sum) + valor
  | [] => by simp [adicionar_gasto]
  | (c, x) :: resto => by
    by_cases h : c = categoria
    · simp only [adicionar_gasto, if_pos h, List.map_cons, List.sum_cons]
      ring
    · simp only [adicionar_gasto, if_neg h, List.map_cons, List.sum_cons,
        soma_adicionar_gasto categoria valor resto]
      ring

/-- Grouping preserves the grand total (main.py lines 134-145). -/
theorem soma_agrupar_gastos (resultados : List Registro) :
    ((agrupar_gastos resultados).map fun p => p.2).sum = total_geral resultados := by
  suffices h : ∀ g : List (String × ℚ),
      (((resultados.foldl (fun g r => adicionar_gasto g r.categoria r.valor) g).map
        fun p => p.2).sum) = ((g.map fun p => p.2).sum) + total_geral resultados by
    simpa [agrupar_gastos] using h []
  induction resultados with
  | nil => intro g; simp [total_geral]
  | cons r resto ih =>
    intro g
    simp only [List.foldl_cons, ih, soma_adicionar_gasto, total_geral,
      List.map_cons, List.sum_cons]
    ring

/-! ### The claims -/

/-- C1: for every input text, `extrair_valor_total` collects all
(value, weight) candidate pairs across all lines and all patterns (the list
`candidatos`) and returns the value of a candidate with the highest weight,
breaking weight ties by preferring the larger value; with no candidates it
returns exactly 0. -/
theorem c1_selecao_maior_peso (texto : String) :
    (candidatos texto.data = [] ∧ extrair_valor_total texto = 0) ∨
    ∃ p ∈ candidatos texto.data, extrair_valor_total texto = p.1 ∧
      ∀ q ∈ candidatos texto.data, q.2 < p.2 ∨ (q.2 = p.2 ∧ q.1 ≤ p.1) :=
  extrair_valor_caracterizacao texto

/-- C6: every parsed candidate kept by `extrair_valor_total` lies in
[0.01, 999999.99] (values outside the range are rejected and can never be
returned), and the result is either exactly 0 or a value in that range —
in particular it is never negative. -/
theorem c6_intervalo_valor (texto : String) :
    (∀ p ∈ candidatos texto.data, 1/100 ≤ p.1 ∧ p.1 ≤ 99999999/100) ∧
    (extrair_valor_total texto = 0 ∨
      (1/100 ≤ extrair_valor_total texto ∧
        extrair_valor_total texto ≤ 99999999/100)) := by
  refine ⟨fun p hp => candidatos_intervalo hp, ?_⟩
  rcases extrair_valor_caracterizacao texto with ⟨-, h⟩ | ⟨p, hp, hval, -⟩
  · exact Or.inl h
  · exact Or.inr (hval ▸ candidatos_intervalo hp)

/-- C3: the locale normalization of the amount extractor maps the token
"1.234,56" to 1234.56 (both separators present: dots stripped, the comma
becomes the decimal point), "1234.56" to 1234.56, and "45,90" to 45.90 (a
single comma treated as the decimal point); end to end, the text "45,90"
yields the amount 45.90. -/
theorem c3_normalizacao_locale :
    normalizar_valor "1.234,56".data = some (123456/100) ∧
    normalizar_valor "1234.56".data = some (123456/100) ∧
    normalizar_valor "45,90".data = some (459/10) ∧
    extrair_valor_total "45,90" = 459/10 := by
  refine ⟨by decide, by decide, by decide, by decide⟩

/-- C2: whenever `extrair_cnpj` returns a value, that value is a string of
exactly 14 digits whose digits are not all identical and that does not begin
with "00000"; candidates failing these checks are never returned, and absence
is `none`, never an empty or default string. -/
theorem c2_invariante_cnpj (texto s : String)
    (h : extrair_cnpj texto = some s) :
    s.length = 14 ∧ s.data.all ehDigito = true ∧
    todosDigitosIguais s.data = false ∧
    "00000".data.isPrefixOf s.data = false := by
  unfold extrair_cnpj at h
  rw [buscar_cnpj_eq_find] at h
  obtain ⟨l, hfind, rfl⟩ := Option.map_eq_some'.mp h
  have hp := List.find?_some hfind
  have hmem := List.mem_of_find?_eq_some hfind
  unfold aceitar_cnpj validar_cnpj at hp
  rw [Bool.and_eq_true, Bool.and_eq_true] at hp
  have hlen := hp.1
  have hpref := hp.2.1
  have higuais := hp.2.2
  rw [List.mem_flatMap] at hmem
  obtain ⟨pat, -, hmem⟩ := hmem
  rw [List.mem_map] at hmem
  obtain ⟨m, -, hm⟩ := hmem
  refine ⟨by simpa using hlen, ?_, by simpa using higuais, by simpa using hpref⟩
  rw [← hm]
  exact List.all_eq_true.mpr fun c hc => (List.mem_filter.mp hc).2

/-- Witness for C2: a concrete labelled, formatted identifier is accepted and
satisfies the invariant. -/
theorem c2_invariante_cnpj_witness :
    ("12345678000195" : String).length = 14 ∧
    ("12345678000195" : String).data.all ehDigito = true ∧
    todosDigitosIguais ("12345678000195" : String).data = false ∧
    "00000".data.isPrefixOf ("12345678000195" : String).data = false :=
  c2_invariante_cnpj "CNPJ: 12.345.678/0001-95" "12345678000195" (by decide)

/-- C5: the four CNPJ patterns are tried in declared order and the first
cleaned candidate with exactly 14 digits that passes validation is returned
(pattern order first, then match order) — equivalently, the result is `find?`
over the candidates of all patterns concatenated in declared order; when no
candidate is accepted the result is `none`, not an error. -/
theorem c5_primeiro_candidato_vence (texto : String) :
    extrair_cnpj texto =
      ((padroes_cnpj.flatMap fun pat =>
        (procurarTodos pat (limpar_texto texto.data)).map limpar_cnpj).find?
          aceitar_cnpj).map String.mk ∧
    (extrair_cnpj texto = none ↔
      ∀ c ∈ (padroes_cnpj.flatMap fun pat =>
          (procurarTodos pat (limpar_texto texto.data)).map limpar_cnpj),
        ¬ aceitar_cnpj c = true) := by
  constructor
  · unfold extrair_cnpj
    rw [buscar_cnpj_eq_find]
  · unfold extrair_cnpj
    rw [buscar_cnpj_eq_find, Option.map_eq_none']
    exact List.find?_eq_none

/-- C4: `categorizar_por_cnae` lower-cases the description and returns the
first category, in declared table order, one of whose keywords occurs as a
substring of the description; an empty description or one containing no
configured keyword yields "Outros"; in particular "Restaurante e Lanchonete"
maps to "Alimentação" and "" to "Outros". -/
theorem c4_primeira_categoria :
    (∀ descricao : String,
      categorizar_por_cnae descricao =
        if descricao = "" then "Outros"
        else
          match categorias.find? (fun c => c.2.any fun palavra =>
              contemSub palavra.data (descricao.data.map paraMinuscula)) with
          | some c => c.1
          | none => "Outros") ∧
    categorizar_por_cnae "Restaurante e Lanchonete" = "Alimentação" ∧
    categorizar_por_cnae "" = "Outros" ∧
    ∀ descricao : String,
      (categorias.all fun c => c.2.all fun palavra =>
        !contemSub palavra.data (descricao.data.map paraMinuscula)) = true →
      categorizar_por_cnae descricao = "Outros" := by
  refine ⟨?_, by decide, by decide, ?_⟩
  · intro descricao
    by_cases h : descricao = ""
    · rw [if_pos h, h]
      rfl
    · rw [if_neg h]
      unfold categorizar_por_cnae
      rw [if_neg h, categorizar_lista_eq_find]
  · intro descricao hnenhum
    by_cases h : descricao = ""
    · rw [h]
      rfl
    · have hnone : categorias.find? (fun c => c.2.any fun palavra =>
          contemSub palavra.data (descricao.data.map paraMinuscula)) = none := by
        rw [List.find?_eq_none]
        intro c hc hany
        obtain ⟨palavra, hpal, hcontem⟩ := List.any_eq_true.mp hany
        have hfalso : (!contemSub palavra.data
            (descricao.data.map paraMinuscula)) = true :=
          List.all_eq_true.mp (List.all_eq_true.mp hnenhum c hc) palavra hpal
        rw [hcontem] at hfalso
        exact absurd hfalso (by decide)
      unfold categorizar_por_cnae
      rw [if_neg h, categorizar_lista_eq_find, hnone]

/-- Witness for C4: "xyz" contains no configured keyword and yields "Outros". -/
theorem c4_primeira_categoria_witness : categorizar_por_cnae "xyz" = "Outros" :=
  c4_primeira_categoria.2.2.2 "xyz" (by decide)

/-- C10 counterexample: "restaurante e papelaria" contains the keyword
"papelaria", yet the categorizer returns "Alimentação" (the earlier
"restaurante" hit), not "Educação" as the claim states. -/
theorem c10_contraexemplo :
    contemSub "papelaria".data
      (("restaurante e papelaria" : String).data.map paraMinuscula) = true ∧
    categorizar_por_cnae "restaurante e papelaria" ≠ "Educação" := by
  exact ⟨by decide, by decide⟩

/-- C10 amended: a description containing "papelaria" is never categorized
"Material de Escritório" (the earlier "Educação" entry also lists
"papelaria"), and whenever additionally no keyword of the four categories
declared before "Educação" occurs in the description, the result is exactly
"Educação". -/
theorem c10_educacao_antes_de_escritorio (descricao : String)
    (hpap : contemSub "papelaria".data
      (descricao.data.map paraMinuscula) = true) :
    categorizar_por_cnae descricao ≠ "Material de Escritório" ∧
    (((categorias.take 4).all fun c => c.2.all fun palavra =>
        !contemSub palavra.data (descricao.data.map paraMinuscula)) = true →
      categorizar_por_cnae descricao = "Educação") := by
  have hne : descricao ≠ "" := by
    intro h
    rw [h] at hpap
    exact absurd hpap (by decide)
  have hD : ∃ c ∈ categorias.take 5, c.2.any (fun palavra =>
      contemSub palavra.data (descricao.data.map paraMinuscula)) = true :=
    ⟨("Educação", palavras_educacao), by decide,
      List.any_eq_true.mpr ⟨"papelaria", by decide, hpap⟩⟩
  constructor
  · unfold categorizar_por_cnae
    rw [if_neg hne,
      show categorias = categorias.take 5 ++ categorias.drop 5 from
        (List.take_append_drop 5 categorias).symm,
      categorizar_lista_prefixo _ _ _ hD]
    intro hEq
    have hmem := categorizar_lista_atinge
      (descricao.data.map paraMinuscula) (categorias.take 5) hD
    rw [hEq] at hmem
    exact absurd hmem (by decide)
  · intro htake
    unfold categorizar_por_cnae
    rw [if_neg hne,
      show categorias = categorias.take 4 ++ categorias.drop 4 from
        (List.take_append_drop 4 categorias).symm,
      categorizar_lista_pular _ _ _ htake,
      show categorias.drop 4 =
        ("Educação", palavras_educacao) :: categorias.drop 5 from rfl,
      categorizar_lista,
      if_pos (List.any_eq_true.mpr ⟨"papelaria", by decide, hpap⟩)]

/-- Witness for the amended C10 at the description "papelaria" itself. -/
theorem c10_educacao_antes_de_escritorio_witness :
    categorizar_por_cnae "papelaria" ≠ "Material de Escritório" ∧
    categorizar_por_cnae "papelaria" = "Educação" :=
  ⟨(c10_educacao_antes_de_escritorio "papelaria" (by decide)).1,
   (c10_educacao_antes_de_escritorio "papelaria" (by decide)).2 (by decide)⟩

/-- C7: if processing one image raises, that image gets the degraded record
(zero amount, absent identifier, category "Outros", error markers in the
name/activity fields) while every other image's record — before or after —
is exactly the one its own processing produces, and the batch always yields
one record per image. -/
theorem c7_isolamento_de_falha (extrair : String → Except String DadosCanhoto)
    (consultar : String → Except String (Option InfoEmpresa))
    (imagens : List String) (i : Nat) (hi : i < imagens.length) (e : String)
    (herr : processar_um extrair consultar imagens[i] = Except.error e) :
    (processar_canhotos extrair consultar imagens).length = imagens.length ∧
    (processar_canhotos extrair consultar imagens)[i]? =
      some (registro_erro imagens[i]) ∧
    (registro_erro imagens[i]).valor = 0 ∧
    (registro_erro imagens[i]).cnpj = none ∧
    (registro_erro imagens[i]).categoria = "Outros" ∧
    (registro_erro imagens[i]).empresa = "Erro no processamento" ∧
    (registro_erro imagens[i]).atividade = "Erro" ∧
    ∀ j (hj : j < imagens.length),
      (processar_canhotos extrair consultar imagens)[j]? =
        some (match processar_um extrair consultar imagens[j] with
          | Except.ok registro => registro
          | Except.error _ => registro_erro imagens[j]) := by
  have hmapa : ∀ j (hj : j < imagens.length),
      (processar_canhotos extrair consultar imagens)[j]? =
        some (match processar_um extrair consultar imagens[j] with
          | Except.ok registro => registro
          | Except.error _ => registro_erro imagens[j]) := by
    intro j hj
    unfold processar_canhotos
    rw [List.getElem?_map, List.getElem?_eq_getElem hj]
    rfl
  refine ⟨by simp [processar_canhotos], ?_, rfl, rfl, rfl, rfl, rfl, hmapa⟩
  rw [hmapa i hi, herr]

/-- A Textract oracle that raises on the first image and succeeds on the
second, and a registry oracle that finds nothing. -/
def extrair_teste : String → Except String DadosCanhoto := fun arquivo =>
  if arquivo = "a.jpg" then Except.error "falha"
  else Except.ok ⟨none, 5, "texto"⟩

def consultar_teste : String → Except String (Option InfoEmpresa) :=
  fun _ => Except.ok none

/-- Witness for C7: with the failing first image, the batch still produces a
record per image, the first being the degraded record. -/
theorem c7_isolamento_de_falha_witness :
    (processar_canhotos extrair_teste consultar_teste ["a.jpg", "b.jpg"]).length
      = (["a.jpg", "b.jpg"] : List String).length ∧
    (processar_canhotos extrair_teste consultar_teste ["a.jpg", "b.jpg"])[0]? =
      some (registro_erro "a.jpg") := by
  have h := c7_isolamento_de_falha extrair_teste consultar_teste
    ["a.jpg", "b.jpg"] 0 (by decide) "falha" rfl
  exact ⟨h.1, h.2.1⟩

/-- C8: the registry lookup returns `none` for every transport error and for
every non-200 response — such failures never escape as exceptions (the
function is total) — and a 200 response returns the parsed record. -/
theorem c8_falha_vira_ausencia (http : String → Except String Resposta)
    (cnpj : String) :
    (∀ e, http (url_cnpj cnpj) = Except.error e →
      consultar_cnpj_brasilapi http cnpj = none) ∧
    (∀ r, http (url_cnpj cnpj) = Except.ok r → r.status_code ≠ 200 →
      consultar_cnpj_brasilapi http cnpj = none) ∧
    (∀ r, http (url_cnpj cnpj) = Except.ok r → r.status_code = 200 →
      consultar_cnpj_brasilapi http cnpj = some r.corpo) := by
  refine ⟨fun e h => ?_, fun r h hne => ?_, fun r h h200 => ?_⟩
  · unfold consultar_cnpj_brasilapi
    rw [h]
  · unfold consultar_cnpj_brasilapi
    rw [h]
    exact if_neg hne
  · unfold consultar_cnpj_brasilapi
    rw [h]
    exact if_pos h200

def http_falha : String → Except String Resposta :=
  fun _ => Except.error "timeout"

/-- Witness for C8: a transport error surfaces as `none`. -/
theorem c8_falha_vira_ausencia_witness :
    consultar_cnpj_brasilapi http_falha "12345678000195" = none :=
  (c8_falha_vira_ausencia http_falha "12345678000195").1 "timeout" rfl

/-- Two receipts of 10 each in categories "A" and "B". -/
def resultados_c9 : List Registro :=
  [⟨"a.jpg", none, 10, "E1", "At1", "A", "t1"⟩,
   ⟨"b.jpg", none, 10, "E2", "At2", "B", "t2"⟩]

/-- C9 counterexample: on two categories totalling 10 each, the console
report prints bars of length 15 = int(50 / 3.33), while the claimed
"total divided by the maximum, scaled to width 30" gives
int((10 / 10) · 30) = 30 — the console renderer does not satisfy the claim,
although both renderers agree on the numeric columns. -/
theorem c9_contraexemplo :
    gerar_relatorio resultados_c9 = [("A", 10, 50, 15), ("B", 10, 50, 15)] ∧
    gerar_relatorio_categorias (agrupar_gastos resultados_c9) =
      [("A", 10, 50, 30), ("B", 10, 50, 30)] ∧
    pyInt ((10 : ℚ) / valor_maximo (agrupar_gastos resultados_c9) * 30) = 30 ∧
    (15 : ℤ) ≠ 30 := by
  exact ⟨by decide, by decide, by decide, by decide⟩

/-- C9 amended: the categories report's bar length is
int((total / maximum) · 30) on every line; the console report's bar length is
instead int(percentage / 3.33), the percentage being the category's share of
the grand total; for a positive grand total the two renderers agree on the
numeric content (category, total, percentage) of every line with positive
total. -/
theorem c9_barras_dos_relatorios (resultados : List Registro)
    (htot : 0 < total_geral resultados) :
    (∀ ent ∈ gerar_relatorio_categorias (agrupar_gastos resultados),
      ent.2.2.2 =
        pyInt (ent.2.1 / valor_maximo (agrupar_gastos resultados) * 30)) ∧
    (∀ ent ∈ gerar_relatorio resultados,
      ent.2.2.2 = pyInt (ent.2.2.1 / (333/100))) ∧
    (gerar_relatorio resultados).map (fun ent => (ent.1, ent.2.1, ent.2.2.1)) =
      ((gerar_relatorio_categorias (agrupar_gastos resultados)).filter
        fun ent => 0 < ent.2.1).map fun ent => (ent.1, ent.2.1, ent.2.2.1) := by
  refine ⟨?_, ?_, ?_⟩
  · intro ent hent
    simp only [gerar_relatorio_categorias, List.mem_map] at hent
    obtain ⟨g, -, rfl⟩ := hent
    rfl
  · intro ent hent
    simp only [gerar_relatorio, if_pos htot, List.mem_map] at hent
    obtain ⟨g, -, rfl⟩ := hent
    rfl
  · simp only [gerar_relatorio, gerar_relatorio_categorias, if_pos htot,
      soma_agrupar_gastos, List.filter_map, List.map_map, Function.comp_def]

/-- Witness for the amended C9 at the two-category batch. -/
theorem c9_barras_dos_relatorios_witness :
    (gerar_relatorio resultados_c9).map (fun ent => (ent.1, ent.2.1, ent.2.2.1)) =
      ((gerar_relatorio_categorias (agrupar_gastos resultados_c9)).filter
        fun ent => 0 < ent.2.1).map fun ent => (ent.1, ent.2.1, ent.2.2.1) :=
  (c9_barras_dos_relatorios resultados_c9 (by decide)).2.2

end AnalisadorFiscal
